import Mathlib

/-!
Shallow embedding of the HEAVEN backend (src/server.js, the stricter variant, and
src/unnamed/part_000, the weaker variant): registration, login, reel upload and
listing, with their validation, hashing, token, rate-limiting and multipart
middleware.  External libraries (bcryptjs, jsonwebtoken, express-validator,
express-rate-limit, multer, the MongoDB sort) are modelled by executable Lean
functions faithful to their documented behaviour; the route handlers themselves are
translated line by line from the source.
-/

namespace Heaven

/-- Model of bcryptjs hash: a deterministic injective encoding of cost factor and
plaintext.  Real bcrypt salts its output; determinism is immaterial to the
properties proved here, which only use that compare succeeds exactly on the
matching plaintext. -/
def bcrypt.hash (plaintext : String) (cost : Nat) : String :=
  "$2a$" ++ toString cost ++ "$" ++ plaintext

/-- Model of bcryptjs compare: true exactly when the stored credential is the hash
(cost 10, as the register handler uses) of the given plaintext. -/
def bcrypt.compare (plaintext stored : String) : Bool :=
  stored == bcrypt.hash plaintext 10

/-- JWT claim set signed by the server: userId and email plus the expiry instant
(seconds), as produced by jwt.sign in POST /api/login. -/
structure JwtClaims where
  userId : String
  email : String
  exp : Nat
deriving Repr, DecidableEq

/-- A signed token: claims plus signature. -/
structure JwtToken where
  claims : JwtClaims
  sig : String
deriving Repr, DecidableEq

/-- The signing secret: server.js line 17 falls back to this literal when the
environment variable is absent. -/
def JWT_SECRET : String := "your_jwt_secret"

/-- Model of the MAC jsonwebtoken computes over the payload with the server secret. -/
def jwtSignature (secret : String) (c : JwtClaims) : String :=
  secret ++ "#" ++ c.userId ++ "#" ++ c.email ++ "#" ++ toString c.exp

/-- Model of jwt.sign with expiresIn 1h (server.js line 125): signs the claim set
with expiry 3600 seconds after issuance. -/
def jwt.sign (userId email secret : String) (now : Nat) : JwtToken :=
  let c : JwtClaims := { userId := userId, email := email, exp := now + 3600 }
  { claims := c, sig := jwtSignature secret c }

/-- Failure modes of token verification. -/
inductive JwtError where
  | malformed
  | invalidSignature
  | expired
deriving Repr, DecidableEq

/-- Model of jwt.verify on a parsed token (server.js line 143): signature check,
then expiry check — jsonwebtoken rejects once the clock reaches exp. -/
def jwt.verify (secret : String) (t : JwtToken) (now : Nat) : Except JwtError JwtClaims :=
  if t.sig ≠ jwtSignature secret t.claims then .error .invalidSignature
  else if t.claims.exp ≤ now then .error .expired
  else .ok t.claims

/-- One space-separated word of an Authorization header: either a well-formed
serialized token or other text (which jwt.verify rejects as malformed). -/
inductive TokenWire where
  | tok (t : JwtToken)
  | text (s : String)
deriving Repr, DecidableEq

/-- jwt.verify applied to a header word. -/
def jwt.verifyWire (secret : String) (w : TokenWire) (now : Nat) : Except JwtError JwtClaims :=
  match w with
  | .text _ => .error .malformed
  | .tok t => jwt.verify secret t now

/-- String startsWith, phrased on the character lists so proofs can evaluate it. -/
def strStartsWith (s pre : String) : Bool :=
  pre.data.isPrefixOf s.data

/-- Split a character list at every occurrence of the separator. -/
def splitOnChar (c : Char) : List Char → List (List Char)
  | [] => [[]]
  | x :: rest =>
    if x == c then [] :: splitOnChar c rest
    else
      match splitOnChar c rest with
      | [] => [[x]]
      | h :: t => (x :: h) :: t

/-- Model of express-validator isEmail: exactly one at-sign, nonempty local part,
domain nonempty, containing a dot and not starting or ending with one. -/
def isEmail (s : String) : Bool :=
  match splitOnChar '@' s.data with
  | [l, d] =>
    !l.isEmpty && !d.isEmpty && d.contains '.' &&
      !(d.head? == some '.') && !(d.getLast? == some '.')
  | _ => false

/-- body(email).isEmail() on a possibly missing field: a missing field fails. -/
def vIsEmail : Option String → Bool
  | some e => isEmail e
  | none => false

/-- body(password).isLength(min 6) on a possibly missing field. -/
def vMinLength6 : Option String → Bool
  | some p => 6 ≤ p.length
  | none => false

/-- body(password).exists(). -/
def vExists : Option String → Bool
  | some _ => true
  | none => false

/-- User document of the stricter variant (server.js UserSchema): unique email plus
bcrypt hash.  The id field models the document id mongoose assigns on save. -/
structure User where
  id : String
  email : String
  passwordHash : String
deriving Repr, DecidableEq

/-- Reel document (ReelSchema): title, stored filename, created timestamp. -/
structure Reel where
  title : String
  filename : String
  created : Nat
deriving Repr, DecidableEq

/-- Contents of the document store of the stricter variant. -/
structure Store where
  users : List User
  reels : List Reel
deriving Repr, DecidableEq

/-- Model of mongoose User.findOne with an email filter: first matching document. -/
def findOneUser (users : List User) (email : String) : Option User :=
  users.find? (fun u => u.email == email)

/-- The JSON bodies the server can send.  frameworkError marks an error that escaped
the route handlers to the framework default error handling (no error-handling
middleware is registered in server.js, so such an error is answered by the Express
default handler with status 500 and a body that is not the handler envelope).
unhandledRejection marks a rejection of the async jwt.verify callback in the
stricter upload handler that nobody awaits: no HTTP response is sent at all
(recorded here with status 0) and the process suffers an unhandled promise
rejection, which terminates modern Node. -/
inductive RespBody where
  | envelope (success : Bool) (message : String) (error : Option String)
  | envelopeToken (success : Bool) (message : String) (token : JwtToken)
  | validationErrors (fields : List String)
  | reelList (reels : List Reel)
  | frameworkError (message : String)
  | unhandledRejection (message : String)
deriving Repr, DecidableEq

/-- An HTTP response: status code and JSON body. -/
structure Response where
  status : Nat
  body : RespBody
deriving Repr, DecidableEq

/-- True when the body is JSON produced by a route handler (envelope, validation
errors, or data); false when the response fell through to the framework. -/
def handlerJson : RespBody → Bool
  | .envelope _ _ _ => true
  | .envelopeToken _ _ _ => true
  | .validationErrors _ => true
  | .reelList _ => true
  | .frameworkError _ => false
  | .unhandledRejection _ => false

/-- Outcome of the awaited store (and hashing) operations a single request
performs: mongoose and bcryptjs either resolve, or reject with an error message.
Each route takes the outcome as a parameter, so theorems can quantify over store
failures instead of assuming an infallible store. -/
inductive StoreOutcome where
  | ok
  | fail (message : String)
deriving Repr, DecidableEq

/-- express-rate-limit configuration: window length (ms) and max hits per window. -/
structure Limiter where
  windowMs : Nat
  max : Nat
deriving Repr, DecidableEq

/-- server.js lines 54-58. -/
def loginLimiter : Limiter := { windowMs := 15 * 60 * 1000, max := 10 }

/-- server.js lines 60-64. -/
def uploadLimiter : Limiter := { windowMs := 15 * 60 * 1000, max := 20 }

/-- Per-client counter of the limiter store. -/
structure LimiterEntry where
  key : String
  windowStart : Nat
  hits : Nat
deriving Repr, DecidableEq

/-- Model of the express-rate-limit store increment: a fixed window per client key.
Returns the hit count charged to this request and the updated store.  A request
after the window expired starts a fresh window. -/
def Limiter.hit (l : Limiter) (entries : List LimiterEntry) (key : String) (now : Nat) :
    Nat × List LimiterEntry :=
  match entries with
  | [] => (1, [{ key := key, windowStart := now, hits := 1 }])
  | e :: rest =>
    if e.key == key then
      if now < e.windowStart + l.windowMs then
        (e.hits + 1, { e with hits := e.hits + 1 } :: rest)
      else
        (1, { key := key, windowStart := now, hits := 1 } :: rest)
    else
      let r := Limiter.hit l rest key now
      (r.1, e :: r.2)

/-- Whole in-process state of the stricter variant: store contents, the two limiter
stores, and the filenames multer has written under uploads/reels. -/
structure ServerState where
  store : Store
  loginhits : List LimiterEntry
  uploadhits : List LimiterEntry
  disk : List String
deriving Repr, DecidableEq

/-- JSON body of POST /api/register and POST /api/login; fields may be absent. -/
structure CredBody where
  email : Option String
  password : Option String
deriving Repr, DecidableEq

/-- Validation errors collected for POST /api/register, in validator order
(server.js lines 81-82): email must be an email, password at least 6 long. -/
def registerErrors (b : CredBody) : List String :=
  (if vIsEmail b.email then [] else ["email"]) ++
  (if vMinLength6 b.password then [] else ["password"])

/-- POST /api/register route of the stricter variant, server.js lines 80-103.  The
handler try/catch maps a rejection of any awaited operation (findOne, bcrypt.hash,
save) to the 500 Server error envelope, state unchanged. -/
def registerRoute (st : ServerState) (b : CredBody) (so : StoreOutcome) :
    Response × ServerState :=
  let errs := registerErrors b
  if !errs.isEmpty then
    ({ status := 400, body := .validationErrors errs }, st)
  else
    match so with
    | .fail m =>
      ({ status := 500, body := .envelope false "Server error" (some m) }, st)
    | .ok =>
    let email := b.email.getD ""
    let password := b.password.getD ""
    match findOneUser st.store.users email with
    | some _ =>
      ({ status := 409, body := .envelope false "User already exists" none }, st)
    | none =>
      let u : User :=
        { id := "id" ++ toString st.store.users.length
        , email := email
        , passwordHash := bcrypt.hash password 10 }
      ({ status := 200, body := .envelope true "User registered successfully" none }
      , { st with store := { st.store with users := st.store.users ++ [u] } })

/-- Validation errors collected for POST /api/login (server.js lines 107-108). -/
def loginErrors (b : CredBody) : List String :=
  (if vIsEmail b.email then [] else ["email"]) ++
  (if vExists b.password then [] else ["password"])

/-- POST /api/login route of the stricter variant, server.js lines 106-131:
loginLimiter, then validators, then the handler.  The handler try/catch maps a
rejection of any awaited operation (findOne, bcrypt.compare) to the 500 Server
error envelope. -/
def loginRoute (st : ServerState) (clientKey : String) (b : CredBody) (now : Nat)
    (so : StoreOutcome) : Response × ServerState :=
  let r := loginLimiter.hit st.loginhits clientKey now
  let st1 := { st with loginhits := r.2 }
  if loginLimiter.max < r.1 then
    ({ status := 429
     , body := .envelope false "Too many login attempts, please try later." none }, st1)
  else
    let errs := loginErrors b
    if !errs.isEmpty then
      ({ status := 400, body := .validationErrors errs }, st1)
    else
      match so with
      | .fail m =>
        ({ status := 500, body := .envelope false "Server error" (some m) }, st1)
      | .ok =>
      let email := b.email.getD ""
      let password := b.password.getD ""
      match findOneUser st1.store.users email with
      | none =>
        ({ status := 401, body := .envelope false "Invalid email or password" none }, st1)
      | some user =>
        if !(bcrypt.compare password user.passwordHash) then
          ({ status := 401, body := .envelope false "Invalid email or password" none }, st1)
        else
          let token := jwt.sign user.id user.email JWT_SECRET now
          ({ status := 200, body := .envelopeToken true "Login successful" token }, st1)

/-- One multipart file as busboy presents it to multer. -/
structure UploadFile where
  originalname : String
  mimetype : String
  size : Nat
deriving Repr, DecidableEq

/-- Multipart request to POST /api/upload.  The Authorization header is modelled as
its list of space-separated words, each word possibly a serialized token. -/
structure UploadRequest where
  clientKey : String
  authHeader : Option (List TokenWire)
  file : Option UploadFile
  title : Option String
deriving Repr, DecidableEq

/-- Replace each maximal run of whitespace by one underscore, as
originalname.replace with the all-whitespace-runs pattern does. -/
def sanitizeAux : Bool → List Char → List Char
  | _, [] => []
  | prevWs, c :: rest =>
    if c.isWhitespace then
      if prevWs then sanitizeAux true rest
      else '_' :: sanitizeAux true rest
    else c :: sanitizeAux false rest

/-- The sanitized original filename. -/
def sanitize (s : String) : String := { data := sanitizeAux false s.data }

/-- Stored filename generated by the diskStorage filename callback
(server.js line 69): current epoch millis, a dash, the sanitized original name. -/
def storedFilename (now : Nat) (originalname : String) : String :=
  toString now ++ "-" ++ sanitize originalname

/-- Outcome of the multer middleware: proceed to the handler (with the accepted
file and its stored name, if a file was sent) or abort, passing an error to the
framework. -/
inductive MulterResult where
  | proceed (file : Option (UploadFile × String))
  | reject (message : String)
deriving Repr, DecidableEq

/-- Model of upload.single video with fileFilter and the 50 MB fileSize limit
(server.js lines 66-75): the fileFilter runs on the file metadata first; the size
limit is enforced while streaming to disk, the partly-written file being removed on
overflow; an accepted file is written to disk under its stored name. -/
def multerSingleVideo (r : UploadRequest) (now : Nat) : MulterResult :=
  match r.file with
  | none => .proceed none
  | some f =>
    if !(strStartsWith f.mimetype "video/") then .reject "Only video files are allowed"
    else if 50 * 1024 * 1024 < f.size then .reject "File too large"
    else .proceed (some (f, storedFilename now f.originalname))

/-- POST /api/upload route of the stricter variant, server.js lines 134-157:
uploadLimiter, multer, then the handler checking the Authorization header, the
token, and the presence of file and title before saving the Reel.  The save is
awaited inside the async callback passed to jwt.verify: if it rejects, the
rejected promise of the callback is never awaited, so the handler try/catch does
not catch it — no response is sent and the rejection escapes the handler as an
unhandled promise rejection (the unhandledRejection outcome below). -/
def uploadRoute (st : ServerState) (r : UploadRequest) (now : Nat) (so : StoreOutcome) :
    Response × ServerState :=
  let rl := uploadLimiter.hit st.uploadhits r.clientKey now
  let st1 := { st with uploadhits := rl.2 }
  if uploadLimiter.max < rl.1 then
    ({ status := 429, body := .envelope false "Too many uploads, please try later." none }
    , st1)
  else
    match multerSingleVideo r now with
    | .reject msg =>
      ({ status := 500, body := .frameworkError msg }, st1)
    | .proceed fileOpt =>
      let st2 :=
        match fileOpt with
        | some p => { st1 with disk := st1.disk ++ [p.2] }
        | none => st1
      match r.authHeader with
      | none =>
        ({ status := 401, body := .envelope false "Authorization header missing" none }, st2)
      | some words =>
        match words.get? 1 with
        | none =>
          ({ status := 401, body := .envelope false "Token missing" none }, st2)
        | some w =>
          match jwt.verifyWire JWT_SECRET w now with
          | .error _ =>
            ({ status := 401, body := .envelope false "Invalid token" none }, st2)
          | .ok _ =>
            match fileOpt, r.title with
            | some p, some title =>
              if title = "" then
                ({ status := 400, body := .envelope false "Missing file or title" none }, st2)
              else
                match so with
                | .fail m => ({ status := 0, body := .unhandledRejection m }, st2)
                | .ok =>
                  ({ status := 200, body := .envelope true "Upload successful" none }
                  , { st2 with store :=
                      { st2.store with reels :=
                          st2.store.reels ++
                            [{ title := title, filename := p.2, created := now }] } })
            | _, _ =>
              ({ status := 400, body := .envelope false "Missing file or title" none }, st2)

/-- The token check of the upload handler fails on this header: header missing,
token word missing, or jwt.verify rejecting. -/
def authRejected (h : Option (List TokenWire)) (now : Nat) : Bool :=
  match h with
  | none => true
  | some words =>
    match words.get? 1 with
    | none => true
    | some w =>
      match jwt.verifyWire JWT_SECRET w now with
      | .error _ => true
      | .ok _ => false

/-- Model of Reel.find().sort with created descending (server.js line 162): the
stored reels sorted by created, newest first. -/
def reelsSorted (l : List Reel) : List Reel :=
  List.insertionSort (fun a b => b.created ≤ a.created) l

/-- GET /api/reels handler, server.js lines 160-167.  A rejection of the awaited
find is caught and mapped to the 500 Failed-to-fetch envelope. -/
def getReels (st : ServerState) (so : StoreOutcome) : Response :=
  match so with
  | .fail m => { status := 500, body := .envelope false "Failed to fetch reels" (some m) }
  | .ok => { status := 200, body := .reelList (reelsSorted st.store.reels) }

/-- User document of the weaker variant (part_000 lines 28-31): plaintext password. -/
structure WUser where
  email : String
  password : String
deriving Repr, DecidableEq

/-- In-process state of the weaker variant: users, reels, disk. -/
structure WState where
  users : List WUser
  reels : List Reel
  disk : List String
deriving Repr, DecidableEq

/-- POST /api/register of the weaker variant (part_000 lines 82-96): truthiness
check on both fields, duplicate pre-check, plaintext save.  A store rejection is
caught by the handler try/catch and answered with the 500 Server error envelope. -/
def wRegisterRoute (st : WState) (b : CredBody) (so : StoreOutcome) :
    Response × WState :=
  let email := b.email.getD ""
  let password := b.password.getD ""
  if email = "" || password = "" then
    ({ status := 400, body := .envelope false "Missing credentials" none }, st)
  else
    match so with
    | .fail m =>
      ({ status := 500, body := .envelope false "Server error" (some m) }, st)
    | .ok =>
    match st.users.find? (fun u => u.email == email) with
    | some _ => ({ status := 409, body := .envelope false "User already exists" none }, st)
    | none =>
      ({ status := 200, body := .envelope true "User registered successfully" none }
      , { st with users := st.users ++ [{ email := email, password := password }] })

/-- POST /api/login of the weaker variant (part_000 lines 69-80): findOne matching
email and password together; one failure answer for both causes.  A store
rejection is caught and answered with the 500 Server error envelope. -/
def wLoginRoute (st : WState) (b : CredBody) (so : StoreOutcome) : Response × WState :=
  let email := b.email.getD ""
  let password := b.password.getD ""
  if email = "" || password = "" then
    ({ status := 400, body := .envelope false "Missing credentials" none }, st)
  else
    match so with
    | .fail m =>
      ({ status := 500, body := .envelope false "Server error" (some m) }, st)
    | .ok =>
    match st.users.find? (fun u => u.email == email && u.password == password) with
    | some _ => ({ status := 200, body := .envelope true "Login successful" none }, st)
    | none => ({ status := 401, body := .envelope false "Invalid email or password" none }, st)

/-- Multer of the weaker variant (part_000 lines 62-66): same diskStorage but no
fileFilter and no size limit — every file is accepted and written. -/
def wMulterSingleVideo (r : UploadRequest) (now : Nat) : MulterResult :=
  match r.file with
  | none => .proceed none
  | some f => .proceed (some (f, storedFilename now f.originalname))

/-- POST /api/upload of the weaker variant (part_000 lines 98-109): no limiter and
no token check; missing file or title gives 400, else the Reel is saved.  Unlike
the stricter variant, the save is awaited directly inside the handler try block,
so a rejection is caught and answered with the 500 Server error envelope. -/
def wUploadRoute (st : WState) (r : UploadRequest) (now : Nat) (so : StoreOutcome) :
    Response × WState :=
  match wMulterSingleVideo r now with
  | .reject msg => ({ status := 500, body := .frameworkError msg }, st)
  | .proceed fileOpt =>
    let st2 :=
      match fileOpt with
      | some p => { st with disk := st.disk ++ [p.2] }
      | none => st
    match fileOpt, r.title with
    | some p, some title =>
      if title = "" then
        ({ status := 400, body := .envelope false "Missing file or title" none }, st2)
      else
        match so with
        | .fail m =>
          ({ status := 500, body := .envelope false "Server error" (some m) }, st2)
        | .ok =>
          ({ status := 200, body := .envelope true "Upload successful" none }
          , { st2 with reels :=
              st2.reels ++ [{ title := title, filename := p.2, created := now }] })
    | _, _ => ({ status := 400, body := .envelope false "Missing file or title" none }, st2)

/-! ## Concrete states and requests used by witnesses and counterexamples -/

/-- Fresh server state of the stricter variant. -/
def stEmpty : ServerState :=
  { store := { users := [], reels := [] }, loginhits := [], uploadhits := [], disk := [] }

/-- A stored user with bcrypt-hashed password. -/
def userB : User := { id := "id0", email := "b@x.com", passwordHash := bcrypt.hash "right1" 10 }

/-- Stricter-variant state holding exactly userB. -/
def stWithB : ServerState :=
  { store := { users := [userB], reels := [] }, loginhits := [], uploadhits := [], disk := [] }

/-- Fresh state of the weaker variant. -/
def wstEmpty : WState := { users := [], reels := [], disk := [] }

/-- Weaker-variant state holding one plaintext user. -/
def wstWithB : WState :=
  { users := [{ email := "b@x.com", password := "right1" }], reels := [], disk := [] }

/-- An upload request carrying a PNG (not video) file and a title, no auth header. -/
def reqPng : UploadRequest :=
  { clientKey := "c", authHeader := none
  , file := some { originalname := "pic one.png", mimetype := "image/png", size := 10 }
  , title := some "t1" }

/-- An upload request carrying a small MP4 video and a title, no auth header. -/
def reqMp4 : UploadRequest :=
  { clientKey := "c", authHeader := none
  , file := some { originalname := "clip.mp4", mimetype := "video/mp4", size := 10 }
  , title := some "t1" }

/-- An upload request carrying an MP4 video one byte over the 50 MB limit. -/
def reqBigMp4 : UploadRequest :=
  { clientKey := "c", authHeader := none
  , file := some { originalname := "big.mp4", mimetype := "video/mp4", size := 50 * 1024 * 1024 + 1 }
  , title := some "t1" }

/-- An upload request carrying a small MP4, a title, and a Bearer header holding a
valid token signed at time 0. -/
def reqMp4Auth : UploadRequest :=
  { clientKey := "c"
  , authHeader := some [.text "Bearer", .tok (jwt.sign "id0" "b@x.com" JWT_SECRET 0)]
  , file := some { originalname := "clip.mp4", mimetype := "video/mp4", size := 10 }
  , title := some "t1" }

/-- Stricter-variant state whose login limiter already counts 10 hits for client c
in a window opened at time 0. -/
def stLoginCapped : ServerState :=
  { store := { users := [], reels := [] }
  , loginhits := [{ key := "c", windowStart := 0, hits := 10 }]
  , uploadhits := [], disk := [] }

/-- Stricter-variant state whose upload limiter already counts 20 hits for client c
in a window opened at time 0. -/
def stUploadCapped : ServerState :=
  { store := { users := [], reels := [] }
  , loginhits := []
  , uploadhits := [{ key := "c", windowStart := 0, hits := 20 }], disk := [] }

/-! ## Helper lemmas -/

theorem find?_append_self {α : Type} (p : α → Bool) {l : List α} (h : l.find? p = none)
    (u : α) (hu : p u = true) : (l ++ [u]).find? p = some u := by
  rw [List.find?_append, h]
  simp [List.find?, hu]

theorem findOneUser_append_self {l : List User} {e : String}
    (h : findOneUser l e = none) (u : User) (hu : u.email = e) :
    findOneUser (l ++ [u]) e = some u := by
  unfold findOneUser at h ⊢
  exact find?_append_self _ h u (by simp [hu])

instance : IsTotal Reel (fun a b => b.created ≤ a.created) :=
  ⟨fun a b => (Nat.le_total b.created a.created)⟩

instance : IsTrans Reel (fun a b => b.created ≤ a.created) :=
  ⟨fun _ _ _ hab hbc => Nat.le_trans hbc hab⟩

/-- The hit count the limiter charges a request whose client already has a live
window entry is the count of that entry plus one. -/
theorem Limiter.hit_of_find (l : Limiter) (entries : List LimiterEntry) (key : String)
    (now : Nat) (e : LimiterEntry)
    (hf : entries.find? (fun x => x.key == key) = some e)
    (hw : now < e.windowStart + l.windowMs) :
    (Limiter.hit l entries key now).1 = e.hits + 1 := by
  induction entries with
  | nil => simp [List.find?] at hf
  | cons a rest ih =>
    by_cases hk : (a.key == key) = true
    · have ha : a = e := by simpa [List.find?, hk] using hf
      subst ha
      simp [Limiter.hit, hk, hw]
    · have hf' : List.find? (fun x => x.key == key) rest = some e := by
        simpa [List.find?, hk] using hf
      simpa [Limiter.hit, hk] using ih hf'

/-! ## Claims -/

/-- C3: a token produced by jwt.sign and immediately passed to jwt.verify yields the
original claims (userId and email, with expiry one hour out), and the same token
presented 1 second after its 1-hour expiry fails verification (the AuthKind path:
the upload handler answers such a failure with 401). -/
theorem token_roundtrip_and_expiry (userId email secret : String) (now : Nat) :
    jwt.verify secret (jwt.sign userId email secret now) now =
      .ok { userId := userId, email := email, exp := now + 3600 } ∧
    jwt.verify secret (jwt.sign userId email secret now) (now + 3600 + 1) =
      .error .expired := by
  constructor
  · simp [jwt.verify, jwt.sign]
  · simp [jwt.verify, jwt.sign]

/-- C5: GET /api/reels returns exactly the stored reels, sorted by created
descending; in particular three reels with created timestamps 1 < 2 < 3 come back
newest first. -/
theorem reels_sorted_desc (st : ServerState) :
    getReels st .ok = { status := 200, body := .reelList (reelsSorted st.store.reels) } ∧
    List.Sorted (fun a b : Reel => b.created ≤ a.created) (reelsSorted st.store.reels) ∧
    (reelsSorted st.store.reels).Perm st.store.reels ∧
    reelsSorted
        [{ title := "r1", filename := "f1", created := 1 }
        , { title := "r2", filename := "f2", created := 2 }
        , { title := "r3", filename := "f3", created := 3 }] =
        [{ title := "r3", filename := "f3", created := 3 }
        , { title := "r2", filename := "f2", created := 2 }
        , { title := "r1", filename := "f1", created := 1 }] := by
  refine ⟨rfl, ?_, ?_, by decide⟩
  · exact List.sorted_insertionSort _ _
  · exact List.perm_insertionSort _ _

/-- C9: a register request whose password is shorter than 6 characters, or whose
email is not a valid address, is answered 400 with the validation-errors body and
leaves the state (in particular the user records) unchanged. -/
theorem register_validation (st : ServerState) (b : CredBody) (so : StoreOutcome)
    (h : vMinLength6 b.password = false ∨ vIsEmail b.email = false) :
    (registerRoute st b so).1.status = 400 ∧
    (registerRoute st b so).1.body = .validationErrors (registerErrors b) ∧
    (registerRoute st b so).2 = st := by
  have hne : (registerErrors b).isEmpty = false := by
    rcases h with h | h <;>
      cases hA : vIsEmail b.email <;> cases hB : vMinLength6 b.password <;>
        simp_all [registerErrors]
  simp [registerRoute, hne]

/-- Witness for C9 at a concrete input: valid email, 3-character password. -/
theorem register_validation_witness :
    (registerRoute { store := { users := [], reels := [] }
                   , loginhits := [], uploadhits := [], disk := [] }
        { email := some "a@x.com", password := some "abc" } .ok).1.status = 400 ∧
    (registerRoute { store := { users := [], reels := [] }
                   , loginhits := [], uploadhits := [], disk := [] }
        { email := some "a@x.com", password := some "abc" } .ok).2 =
      { store := { users := [], reels := [] }
      , loginhits := [], uploadhits := [], disk := [] } := by
  have h := register_validation
    { store := { users := [], reels := [] }, loginhits := [], uploadhits := [], disk := [] }
    { email := some "a@x.com", password := some "abc" } .ok
    (Or.inl (by decide))
  exact ⟨h.1, h.2.2⟩

/-- C1: a register request for a fresh email (passing the body validators of the
stricter variant, or the truthiness check of the weaker one) succeeds with 200 and
success:true, appending exactly one user record; an immediately following register
request for the same email is answered 409 duplicate and leaves the state — in
particular the user records — unchanged.  Proved for both variants. -/
theorem register_twice_duplicate (st : ServerState) (e p : String)
    (he : isEmail e = true) (hp : 6 ≤ p.length)
    (hnone : findOneUser st.store.users e = none)
    (wst : WState) (we wp : String)
    (hwe : we ≠ "") (hwp : wp ≠ "")
    (hwnone : wst.users.find? (fun u => u.email == we) = none) :
    (registerRoute st { email := some e, password := some p } .ok).1 =
      { status := 200, body := .envelope true "User registered successfully" none } ∧
    (registerRoute st { email := some e, password := some p } .ok).2.store.users =
      st.store.users ++
        [{ id := "id" ++ toString st.store.users.length, email := e
         , passwordHash := bcrypt.hash p 10 }] ∧
    (registerRoute (registerRoute st { email := some e, password := some p } .ok).2
        { email := some e, password := some p } .ok).1 =
      { status := 409, body := .envelope false "User already exists" none } ∧
    (registerRoute (registerRoute st { email := some e, password := some p } .ok).2
        { email := some e, password := some p } .ok).2 =
      (registerRoute st { email := some e, password := some p } .ok).2 ∧
    (wRegisterRoute wst { email := some we, password := some wp } .ok).1 =
      { status := 200, body := .envelope true "User registered successfully" none } ∧
    (wRegisterRoute wst { email := some we, password := some wp } .ok).2.users =
      wst.users ++ [{ email := we, password := wp }] ∧
    (wRegisterRoute (wRegisterRoute wst { email := some we, password := some wp } .ok).2
        { email := some we, password := some wp } .ok).1 =
      { status := 409, body := .envelope false "User already exists" none } ∧
    (wRegisterRoute (wRegisterRoute wst { email := some we, password := some wp } .ok).2
        { email := some we, password := some wp } .ok).2 =
      (wRegisterRoute wst { email := some we, password := some wp } .ok).2 := by
  have herr : (registerErrors { email := some e, password := some p }).isEmpty = true := by
    simp [registerErrors, vIsEmail, vMinLength6, he, hp]
  have h1 : registerRoute st { email := some e, password := some p } .ok =
      ({ status := 200, body := .envelope true "User registered successfully" none }
      , { st with store := { st.store with users :=
            st.store.users ++
              [{ id := "id" ++ toString st.store.users.length, email := e
               , passwordHash := bcrypt.hash p 10 }] } }) := by
    simp [registerRoute, herr, hnone]
  have hfind2 : findOneUser
      (st.store.users ++
        [{ id := "id" ++ toString st.store.users.length, email := e
         , passwordHash := bcrypt.hash p 10 }]) e =
      some { id := "id" ++ toString st.store.users.length, email := e
           , passwordHash := bcrypt.hash p 10 } :=
    findOneUser_append_self hnone _ rfl
  have h2 : registerRoute (registerRoute st { email := some e, password := some p } .ok).2
      { email := some e, password := some p } .ok =
      ({ status := 409, body := .envelope false "User already exists" none }
      , (registerRoute st { email := some e, password := some p } .ok).2) := by
    rw [h1]
    simp [registerRoute, herr, hfind2]
  have hw1 : wRegisterRoute wst { email := some we, password := some wp } .ok =
      ({ status := 200, body := .envelope true "User registered successfully" none }
      , { wst with users := wst.users ++ [{ email := we, password := wp }] }) := by
    simp [wRegisterRoute, hwe, hwp, hwnone]
  have hwfind2 : (wst.users ++ [({ email := we, password := wp } : WUser)]).find?
      (fun u => u.email == we) = some ({ email := we, password := wp } : WUser) :=
    find?_append_self _ hwnone ({ email := we, password := wp } : WUser) (by simp)
  have hw2 : wRegisterRoute (wRegisterRoute wst { email := some we, password := some wp } .ok).2
      { email := some we, password := some wp } .ok =
      ({ status := 409, body := .envelope false "User already exists" none }
      , (wRegisterRoute wst { email := some we, password := some wp } .ok).2) := by
    rw [hw1]
    simp [wRegisterRoute, hwe, hwp, hwfind2]
  refine ⟨by rw [h1], by rw [h1], by rw [h2], by rw [h2], by rw [hw1], by rw [hw1]
        , by rw [hw2], by rw [hw2]⟩

/-- Witness for C1 at concrete inputs: email a at x.com, password secret1, on the
fresh states of both variants. -/
theorem register_twice_duplicate_witness :
    (registerRoute stEmpty { email := some "a@x.com", password := some "secret1" } .ok).1 =
      { status := 200, body := .envelope true "User registered successfully" none } ∧
    (registerRoute (registerRoute stEmpty
        { email := some "a@x.com", password := some "secret1" } .ok).2
        { email := some "a@x.com", password := some "secret1" } .ok).1 =
      { status := 409, body := .envelope false "User already exists" none } ∧
    (wRegisterRoute wstEmpty { email := some "a@x.com", password := some "secret1" } .ok).1 =
      { status := 200, body := .envelope true "User registered successfully" none } ∧
    (wRegisterRoute (wRegisterRoute wstEmpty
        { email := some "a@x.com", password := some "secret1" } .ok).2
        { email := some "a@x.com", password := some "secret1" } .ok).1 =
      { status := 409, body := .envelope false "User already exists" none } := by
  have h := register_twice_duplicate stEmpty "a@x.com" "secret1" (by decide) (by decide)
    (by decide) wstEmpty "a@x.com" "secret1" (by decide) (by decide) (by decide)
  exact ⟨h.1, h.2.2.1, h.2.2.2.2.1, h.2.2.2.2.2.2.1⟩

/-- C2: a login request with an unknown email and one with a known email but wrong
password (both passing validation, neither rate-limited) are answered with the same
401 response, status and body identical, so the two failure causes are
indistinguishable to the client.  Proved for both variants. -/
theorem login_auth_indistinguishable
    (st1 st2 : ServerState) (k1 k2 e1 e2 p1 p2 : String) (n1 n2 : Nat) (u : User)
    (he1 : isEmail e1 = true) (he2 : isEmail e2 = true)
    (hr1 : (loginLimiter.hit st1.loginhits k1 n1).1 ≤ loginLimiter.max)
    (hr2 : (loginLimiter.hit st2.loginhits k2 n2).1 ≤ loginLimiter.max)
    (hu1 : findOneUser st1.store.users e1 = none)
    (hu2 : findOneUser st2.store.users e2 = some u)
    (hpw : bcrypt.compare p2 u.passwordHash = false)
    (wst1 wst2 : WState) (we1 we2 wp1 wp2 : String) (wu : WUser)
    (hwe1 : we1 ≠ "") (hwp1 : wp1 ≠ "") (hwe2 : we2 ≠ "") (hwp2 : wp2 ≠ "")
    (hwu1 : ∀ x ∈ wst1.users, x.email ≠ we1)
    (_hwu2 : wu ∈ wst2.users) (_hwu2e : wu.email = we2)
    (hwpw : ∀ x ∈ wst2.users, x.email = we2 → x.password ≠ wp2) :
    (loginRoute st1 k1 { email := some e1, password := some p1 } n1 .ok).1 =
      { status := 401, body := .envelope false "Invalid email or password" none } ∧
    (loginRoute st2 k2 { email := some e2, password := some p2 } n2 .ok).1 =
      { status := 401, body := .envelope false "Invalid email or password" none } ∧
    (loginRoute st1 k1 { email := some e1, password := some p1 } n1 .ok).1 =
      (loginRoute st2 k2 { email := some e2, password := some p2 } n2 .ok).1 ∧
    (wLoginRoute wst1 { email := some we1, password := some wp1 } .ok).1 =
      { status := 401, body := .envelope false "Invalid email or password" none } ∧
    (wLoginRoute wst2 { email := some we2, password := some wp2 } .ok).1 =
      { status := 401, body := .envelope false "Invalid email or password" none } := by
  have hb1 : ¬ loginLimiter.max < (loginLimiter.hit st1.loginhits k1 n1).1 :=
    Nat.not_lt.mpr hr1
  have hb2 : ¬ loginLimiter.max < (loginLimiter.hit st2.loginhits k2 n2).1 :=
    Nat.not_lt.mpr hr2
  have herr1 : (loginErrors { email := some e1, password := some p1 }).isEmpty = true := by
    simp [loginErrors, vIsEmail, vExists, he1]
  have herr2 : (loginErrors { email := some e2, password := some p2 }).isEmpty = true := by
    simp [loginErrors, vIsEmail, vExists, he2]
  have g1 : (loginRoute st1 k1 { email := some e1, password := some p1 } n1 .ok).1 =
      { status := 401, body := .envelope false "Invalid email or password" none } := by
    simp [loginRoute, hb1, herr1, hu1]
  have g2 : (loginRoute st2 k2 { email := some e2, password := some p2 } n2 .ok).1 =
      { status := 401, body := .envelope false "Invalid email or password" none } := by
    simp [loginRoute, hb2, herr2, hu2, hpw]
  have hfind1 : wst1.users.find? (fun x => x.email == we1 && x.password == wp1) = none := by
    rw [List.find?_eq_none]
    intro x hx h
    rw [Bool.and_eq_true, beq_iff_eq, beq_iff_eq] at h
    exact hwu1 x hx h.1
  have hfind2 : wst2.users.find? (fun x => x.email == we2 && x.password == wp2) = none := by
    rw [List.find?_eq_none]
    intro x hx h
    rw [Bool.and_eq_true, beq_iff_eq, beq_iff_eq] at h
    exact hwpw x hx h.1 h.2
  refine ⟨g1, g2, g1.trans g2.symm, ?_, ?_⟩
  · simp [wLoginRoute, hwe1, hwp1, hfind1]
  · simp [wLoginRoute, hwe2, hwp2, hfind2]

/-- Witness for C2 at concrete inputs: unknown a at x.com versus stored b at x.com
with the wrong password, in both variants. -/
theorem login_auth_indistinguishable_witness :
    (loginRoute stEmpty "c" { email := some "a@x.com", password := some "pw1" } 0 .ok).1 =
      { status := 401, body := .envelope false "Invalid email or password" none } ∧
    (loginRoute stWithB "c" { email := some "b@x.com", password := some "wrong1" } 0 .ok).1 =
      { status := 401, body := .envelope false "Invalid email or password" none } ∧
    (wLoginRoute wstEmpty { email := some "a@x.com", password := some "pw1" } .ok).1 =
      { status := 401, body := .envelope false "Invalid email or password" none } ∧
    (wLoginRoute wstWithB { email := some "b@x.com", password := some "wrong1" } .ok).1 =
      { status := 401, body := .envelope false "Invalid email or password" none } := by
  have h := login_auth_indistinguishable stEmpty stWithB "c" "c" "a@x.com" "b@x.com"
    "pw1" "wrong1" 0 0 userB (by decide) (by decide) (by decide) (by decide)
    (by decide) (by decide) (by decide)
    wstEmpty wstWithB "a@x.com" "b@x.com" "pw1" "wrong1"
    { email := "b@x.com", password := "right1" }
    (by decide) (by decide) (by decide) (by decide)
    (by decide) (by decide) (by decide) (by decide)
  exact ⟨h.1, h.2.1, h.2.2.2.1, h.2.2.2.2⟩

/-- C6: once the login hit count of a client in the live 15-minute window has reached 10,
a further login attempt from that client within the window is answered with the
fixed throttling message and the handler is never reached — the store is unchanged —
regardless of the credentials sent; the upload endpoint is likewise capped at 20
hits per 15-minute window. -/
theorem rate_limit_caps (st stU : ServerState) (k : String) (b : CredBody)
    (r : UploadRequest) (n nU : Nat) (e eU : LimiterEntry) (so soU : StoreOutcome)
    (hf : st.loginhits.find? (fun x => x.key == k) = some e)
    (hhits : 10 ≤ e.hits)
    (hw : n < e.windowStart + loginLimiter.windowMs)
    (hfU : stU.uploadhits.find? (fun x => x.key == r.clientKey) = some eU)
    (hhitsU : 20 ≤ eU.hits)
    (hwU : nU < eU.windowStart + uploadLimiter.windowMs) :
    (loginRoute st k b n so).1 =
      { status := 429
      , body := .envelope false "Too many login attempts, please try later." none } ∧
    (loginRoute st k b n so).2.store = st.store ∧
    (uploadRoute stU r nU soU).1 =
      { status := 429, body := .envelope false "Too many uploads, please try later." none } ∧
    (uploadRoute stU r nU soU).2.store = stU.store ∧
    (uploadRoute stU r nU soU).2.disk = stU.disk := by
  have h1 : (loginLimiter.hit st.loginhits k n).1 = e.hits + 1 :=
    Limiter.hit_of_find _ _ _ _ _ hf hw
  have h2 : (uploadLimiter.hit stU.uploadhits r.clientKey nU).1 = eU.hits + 1 :=
    Limiter.hit_of_find _ _ _ _ _ hfU hwU
  have hm1 : loginLimiter.max = 10 := rfl
  have hm2 : uploadLimiter.max = 20 := rfl
  have hb1 : loginLimiter.max < (loginLimiter.hit st.loginhits k n).1 := by omega
  have hb2 : uploadLimiter.max < (uploadLimiter.hit stU.uploadhits r.clientKey nU).1 := by
    omega
  refine ⟨?_, ?_, ?_, ?_, ?_⟩ <;> simp [loginRoute, uploadRoute, hb1, hb2]

/-- Witness for C6 at concrete inputs: clients already at 10 login hits and 20
upload hits in windows opened at time 0, attempting again at time 1. -/
theorem rate_limit_caps_witness :
    (loginRoute stLoginCapped "c" { email := some "a@x.com", password := some "secret1" } 1 .ok).1 =
      { status := 429
      , body := .envelope false "Too many login attempts, please try later." none } ∧
    (uploadRoute stUploadCapped reqMp4 1 .ok).1 =
      { status := 429, body := .envelope false "Too many uploads, please try later." none } := by
  have h := rate_limit_caps stLoginCapped stUploadCapped "c"
    { email := some "a@x.com", password := some "secret1" } reqMp4 1 1
    { key := "c", windowStart := 0, hits := 10 } { key := "c", windowStart := 0, hits := 20 } .ok .ok
    (by decide) (by decide) (by decide) (by decide) (by decide) (by decide)
  exact ⟨h.1, h.2.2.1⟩

/-- C4 counterexample: at a concrete non-video upload (a PNG file with a title) the
stricter variant answers 500 through the framework default error handling — neither
a 400 nor a 415, and not a handler JSON envelope — and the weaker variant, whose
multer has no fileFilter, accepts the same upload and persists a Reel record. -/
theorem upload_nonvideo_counterexample :
    (uploadRoute stEmpty reqPng 5 .ok).1.status = 500 ∧
    ¬ (uploadRoute stEmpty reqPng 5 .ok).1.status = 400 ∧
    ¬ (uploadRoute stEmpty reqPng 5 .ok).1.status = 415 ∧
    handlerJson (uploadRoute stEmpty reqPng 5 .ok).1.body = false ∧
    (wUploadRoute wstEmpty reqPng 5 .ok).1.status = 200 ∧
    (wUploadRoute wstEmpty reqPng 5 .ok).2.reels =
      [{ title := "t1", filename := "5-pic_one.png", created := 5 }] := by
  decide

/-- C4 amended: in the stricter variant an upload whose file content-type does not
start with video/ is rejected by the multer fileFilter before the handler body
runs — no Reel record is persisted and nothing is written to disk — but the
rejection escapes to the framework default error handling as a 500, not as an
UnsupportedMediaKind 400/415 envelope (and the weaker variant, lacking a
fileFilter, accepts such uploads — see the counterexample). -/
theorem upload_nonvideo_amended (st : ServerState) (r : UploadRequest) (n : Nat)
    (f : UploadFile) (so : StoreOutcome) (hf : r.file = some f)
    (hmt : strStartsWith f.mimetype "video/" = false)
    (hrl : (uploadLimiter.hit st.uploadhits r.clientKey n).1 ≤ uploadLimiter.max) :
    (uploadRoute st r n so).1 =
      { status := 500, body := .frameworkError "Only video files are allowed" } ∧
    (uploadRoute st r n so).2.store.reels = st.store.reels ∧
    (uploadRoute st r n so).2.disk = st.disk := by
  have hb : ¬ uploadLimiter.max < (uploadLimiter.hit st.uploadhits r.clientKey n).1 :=
    Nat.not_lt.mpr hrl
  have hm : multerSingleVideo r n = .reject "Only video files are allowed" := by
    simp [multerSingleVideo, hf, hmt]
  refine ⟨?_, ?_, ?_⟩ <;> simp [uploadRoute, hb, hm]

/-- Witness for the amended C4 at a concrete input: the PNG upload request against
the fresh state. -/
theorem upload_nonvideo_amended_witness :
    (uploadRoute stEmpty reqPng 5 .ok).1 =
      { status := 500, body := .frameworkError "Only video files are allowed" } ∧
    (uploadRoute stEmpty reqPng 5 .ok).2.store.reels = [] ∧
    (uploadRoute stEmpty reqPng 5 .ok).2.disk = [] := by
  have h := upload_nonvideo_amended stEmpty reqPng 5
    { originalname := "pic one.png", mimetype := "image/png", size := 10 } .ok
    (by decide) (by decide) (by decide)
  exact ⟨h.1, h.2.1, h.2.2⟩

/-- C8: an upload whose file exceeds the 50 MB fileSize limit is rejected before the
handler body runs: no Reel record is persisted and nothing remains on disk; the
response is either the rate-limit answer or the multer rejection handed to the
framework. -/
theorem upload_size_limit (st : ServerState) (r : UploadRequest) (n : Nat)
    (f : UploadFile) (so : StoreOutcome) (hf : r.file = some f) (hsz : 50 * 1024 * 1024 < f.size) :
    (uploadRoute st r n so).2.store.reels = st.store.reels ∧
    (uploadRoute st r n so).2.disk = st.disk ∧
    ((uploadRoute st r n so).1.status = 429 ∨
      ∃ msg, multerSingleVideo r n = .reject msg ∧
        (uploadRoute st r n so).1 = { status := 500, body := .frameworkError msg }) := by
  by_cases hb : uploadLimiter.max < (uploadLimiter.hit st.uploadhits r.clientKey n).1
  · refine ⟨?_, ?_, Or.inl ?_⟩ <;> simp [uploadRoute, hb]
  · have hm : ∃ msg, multerSingleVideo r n = .reject msg := by
      by_cases hmt : strStartsWith f.mimetype "video/" = true
      · exact ⟨"File too large", by simp [multerSingleVideo, hf, hmt, hsz]⟩
      · exact ⟨"Only video files are allowed", by simp [multerSingleVideo, hf, hmt]⟩
    obtain ⟨msg, hm⟩ := hm
    refine ⟨?_, ?_, Or.inr ⟨msg, hm, ?_⟩⟩ <;> simp [uploadRoute, hb, hm]

/-- Witness for C8 at a concrete input: an MP4 one byte over 50 MB. -/
theorem upload_size_limit_witness :
    (uploadRoute stEmpty reqBigMp4 7 .ok).2.store.reels = [] ∧
    (uploadRoute stEmpty reqBigMp4 7 .ok).2.disk = [] ∧
    (uploadRoute stEmpty reqBigMp4 7 .ok).1 =
      { status := 500, body := .frameworkError "File too large" } := by
  have h := upload_size_limit stEmpty reqBigMp4 7
    { originalname := "big.mp4", mimetype := "video/mp4", size := 50 * 1024 * 1024 + 1 } .ok
    (by decide) (by decide)
  refine ⟨h.1, h.2.1, by decide⟩

/-- C10: for an upload carrying an acceptable video file (content-type video/,
within the size cap) whose Authorization check fails — header missing, token word
missing, or the token invalid — the response is 401, no Reel record is created, and
yet the uploaded file has been written to disk by the multer middleware, which runs
before the token check: the state is not fully unchanged on an auth error. -/
theorem upload_auth_after_write (st : ServerState) (r : UploadRequest) (n : Nat)
    (f : UploadFile) (so : StoreOutcome) (hf : r.file = some f)
    (hmt : strStartsWith f.mimetype "video/" = true)
    (hsz : f.size ≤ 50 * 1024 * 1024)
    (hauth : authRejected r.authHeader n = true)
    (hrl : (uploadLimiter.hit st.uploadhits r.clientKey n).1 ≤ uploadLimiter.max) :
    (uploadRoute st r n so).1.status = 401 ∧
    (uploadRoute st r n so).2.store.reels = st.store.reels ∧
    (uploadRoute st r n so).2.disk = st.disk ++ [storedFilename n f.originalname] := by
  have hb : ¬ uploadLimiter.max < (uploadLimiter.hit st.uploadhits r.clientKey n).1 :=
    Nat.not_lt.mpr hrl
  have hns : ¬ 50 * 1024 * 1024 < f.size := Nat.not_lt.mpr hsz
  have hm : multerSingleVideo r n = .proceed (some (f, storedFilename n f.originalname)) := by
    simp [multerSingleVideo, hf, hmt, hns]
  cases hh : r.authHeader with
  | none => refine ⟨?_, ?_, ?_⟩ <;> simp [uploadRoute, hb, hm, hh]
  | some words =>
    cases hw : words[1]? with
    | none => refine ⟨?_, ?_, ?_⟩ <;> simp [uploadRoute, hb, hm, hh, hw]
    | some w =>
      cases hv : jwt.verifyWire JWT_SECRET w n with
      | error err => refine ⟨?_, ?_, ?_⟩ <;> simp [uploadRoute, hb, hm, hh, hw, hv]
      | ok c =>
        exfalso
        simp [authRejected, hh, hw, hv] at hauth

/-- Witness for C10 at a concrete input: a small MP4 with no Authorization header. -/
theorem upload_auth_after_write_witness :
    (uploadRoute stEmpty reqMp4 5 .ok).1.status = 401 ∧
    (uploadRoute stEmpty reqMp4 5 .ok).2.store.reels = [] ∧
    (uploadRoute stEmpty reqMp4 5 .ok).2.disk = ["5-clip.mp4"] := by
  have h := upload_auth_after_write stEmpty reqMp4 5
    { originalname := "clip.mp4", mimetype := "video/mp4", size := 10 } .ok
    (by decide) (by decide) (by decide) (by decide) (by decide)
  exact ⟨h.1, h.2.1, h.2.2.trans (by decide)⟩

/-- C7 counterexample: two escapes at concrete inputs.  A fileFilter rejection is
not caught by the route handler (framework-default body, not the handler JSON
envelope); and with a valid token, file and title present, a rejecting Reel save
inside the async jwt.verify callback produces no JSON response at all — the
rejection leaves the handler as an unhandled promise rejection. -/
theorem envelope_policy_counterexample :
    (uploadRoute stEmpty reqPng 9 .ok).1.body =
      .frameworkError "Only video files are allowed" ∧
    handlerJson (uploadRoute stEmpty reqPng 9 .ok).1.body = false ∧
    (uploadRoute stEmpty reqMp4Auth 9 (.fail "database down")).1.body =
      .unhandledRejection "database down" ∧
    handlerJson (uploadRoute stEmpty reqMp4Auth 9 (.fail "database down")).1.body = false := by
  decide

/-- C7 amended: every route handler of both variants converts the failures it sees
— including store rejections in register, login, reels listing and the weaker
upload, which the per-handler try/catch maps to a 500 Server error envelope —
into the JSON envelope (or a JSON validation-errors / data body), except that in
the stricter upload route (a) a failure raised by the multer middleware
(fileFilter rejection or size-limit overflow) is passed to the framework and
bypasses the handler envelope, and (b) a rejection of the Reel save inside the
async jwt.verify callback escapes the handler try/catch as an unhandled promise
rejection, producing no JSON response at all. -/
theorem envelope_policy_amended :
    (∀ st b so, handlerJson (registerRoute st b so).1.body = true) ∧
    (∀ st k b n so, handlerJson (loginRoute st k b n so).1.body = true) ∧
    (∀ st so, handlerJson (getReels st so).body = true) ∧
    (∀ st r n so, handlerJson (uploadRoute st r n so).1.body = true ∨
      (∃ msg, multerSingleVideo r n = .reject msg ∧
        (uploadRoute st r n so).1 = { status := 500, body := .frameworkError msg }) ∨
      (∃ msg, so = .fail msg ∧
        (uploadRoute st r n so).1 = { status := 0, body := .unhandledRejection msg })) ∧
    (∀ wst b so, handlerJson (wRegisterRoute wst b so).1.body = true) ∧
    (∀ wst b so, handlerJson (wLoginRoute wst b so).1.body = true) ∧
    (∀ wst r n so, handlerJson (wUploadRoute wst r n so).1.body = true) := by
  refine ⟨?_, ?_, ?_, ?_, ?_, ?_, ?_⟩
  · intro st b so
    by_cases hne : (registerErrors b).isEmpty = true
    · cases so with
      | fail m => simp [registerRoute, hne, handlerJson]
      | ok =>
        cases hfo : findOneUser st.store.users (b.email.getD "") <;>
          simp [registerRoute, hne, hfo, handlerJson]
    · simp [registerRoute, hne, handlerJson]
  · intro st k b n so
    by_cases hb : loginLimiter.max < (loginLimiter.hit st.loginhits k n).1
    · simp [loginRoute, hb, handlerJson]
    · by_cases hne : (loginErrors b).isEmpty = true
      · cases so with
        | fail m => simp [loginRoute, hb, hne, handlerJson]
        | ok =>
          cases hfo : findOneUser st.store.users (b.email.getD "") with
          | none => simp [loginRoute, hb, hne, hfo, handlerJson]
          | some u =>
            by_cases hc : bcrypt.compare (b.password.getD "") u.passwordHash = true
            · simp [loginRoute, hb, hne, hfo, hc, handlerJson]
            · simp [loginRoute, hb, hne, hfo, hc, handlerJson]
      · simp [loginRoute, hb, hne, handlerJson]
  · intro st so
    cases so <;> rfl
  · intro st r n so
    by_cases hb : uploadLimiter.max < (uploadLimiter.hit st.uploadhits r.clientKey n).1
    · left
      simp [uploadRoute, hb, handlerJson]
    · cases hm : multerSingleVideo r n with
      | reject msg =>
        right
        left
        exact ⟨msg, rfl, by simp [uploadRoute, hb, hm]⟩
      | proceed fo =>
        cases hh : r.authHeader with
        | none => left; simp [uploadRoute, hb, hm, hh, handlerJson]
        | some words =>
          cases hw : words[1]? with
          | none => left; simp [uploadRoute, hb, hm, hh, hw, handlerJson]
          | some w =>
            cases hv : jwt.verifyWire JWT_SECRET w n with
            | error err => left; simp [uploadRoute, hb, hm, hh, hw, hv, handlerJson]
            | ok c =>
              cases fo with
              | none => left; simp [uploadRoute, hb, hm, hh, hw, hv, handlerJson]
              | some p =>
                cases ht : r.title with
                | none => left; simp [uploadRoute, hb, hm, hh, hw, hv, ht, handlerJson]
                | some t =>
                  by_cases h0 : t = ""
                  · left
                    simp [uploadRoute, hb, hm, hh, hw, hv, ht, h0, handlerJson]
                  · cases so with
                    | ok =>
                      left
                      simp [uploadRoute, hb, hm, hh, hw, hv, ht, h0, handlerJson]
                    | fail m =>
                      right
                      right
                      exact ⟨m, rfl, by simp [uploadRoute, hb, hm, hh, hw, hv, ht, h0]⟩
  · intro wst b so
    by_cases h1 : b.email.getD "" = ""
    · simp [wRegisterRoute, h1, handlerJson]
    · by_cases h2 : b.password.getD "" = ""
      · simp [wRegisterRoute, h1, h2, handlerJson]
      · cases so with
        | fail m => simp [wRegisterRoute, h1, h2, handlerJson]
        | ok =>
          cases hfo : wst.users.find? (fun u => u.email == b.email.getD "") <;>
            simp [wRegisterRoute, h1, h2, hfo, handlerJson]
  · intro wst b so
    by_cases h1 : b.email.getD "" = ""
    · simp [wLoginRoute, h1, handlerJson]
    · by_cases h2 : b.password.getD "" = ""
      · simp [wLoginRoute, h1, h2, handlerJson]
      · cases so with
        | fail m => simp [wLoginRoute, h1, h2, handlerJson]
        | ok =>
          cases hfo : wst.users.find?
              (fun u => u.email == b.email.getD "" && u.password == b.password.getD "") <;>
            simp [wLoginRoute, h1, h2, hfo, handlerJson]
  · intro wst r n so
    cases hfile : r.file with
    | none => simp [wUploadRoute, wMulterSingleVideo, hfile, handlerJson]
    | some f =>
      cases ht : r.title with
      | none => simp [wUploadRoute, wMulterSingleVideo, hfile, ht, handlerJson]
      | some t =>
        by_cases h0 : t = ""
        · simp [wUploadRoute, wMulterSingleVideo, hfile, ht, h0, handlerJson]
        · cases so <;> simp [wUploadRoute, wMulterSingleVideo, hfile, ht, h0, handlerJson]

end Heaven
